import Mathlib

/-!
Verification of the point-of-interest resolution and routing code
(`src/poi.py` of SmartMobilityAlgorithms/Utilities).

The Python class `poi` performs two HTTP calls and reshapes their JSON
responses.  We embed the response-shaping logic shallowly:

* JSON response bodies become Lean structures (`Feature`, `OsrmResponse`, ...).
  Coordinates and distances are modelled over `ℚ`: the Python code performs
  no arithmetic on them, it only copies and reorders, so the carrier is
  irrelevant and `ℚ` keeps concrete decimal fixtures exact and decidable.
* Python exceptions become an explicit error type `PyErr`:
  `PyErr.valueError msg` models `raise ValueError(msg)` (the spec calls these
  `ResolutionError` / `RoutingError`), and `PyErr.indexError` models an
  uncaught `IndexError` from out-of-bounds list indexing.
* `poi.__geo_decode` becomes `geo_decode`; its fault-driven candidate scan
  (`while` loop with `try/except` around `features[index]`) becomes the
  recursive `geoLoop`.  The initial `place = response_json['features'][0]`
  sits OUTSIDE the `try` in the source, so an empty feature list yields
  `PyErr.indexError`, exactly as the Python raises an uncaught `IndexError`.
* `poi.route_to` becomes `route_to`.  The source reads the attributes of
  `self` and `destination` and assigns none, so the embedding passes both
  places through and returns them alongside the result, which lets the
  frame property be stated.  `location[::-1]` on the 2-element maneuver
  location list is `List.reverse`.
-/

/-- The two kinds of Python exception the `poi` code can raise:
`ValueError` with a message (raised explicitly by the source), and an
uncaught `IndexError` from out-of-bounds list indexing. -/
inductive PyErr where
  | valueError (msg : String)
  | indexError
deriving DecidableEq, Repr

/-- The `properties.geocoding` object of one Nominatim geocodejson feature. -/
structure Geocoding where
  osm_type : String
  osm_id : Int
  label : String
deriving DecidableEq, Repr

/-- One element of the `features` array of a Nominatim geocodejson response:
its geocoding properties and its `geometry.coordinates` pair, which is in
(longitude, latitude) order. -/
structure Feature where
  geocoding : Geocoding
  coordinates : ℚ × ℚ
deriving DecidableEq, Repr

/-- The resolved place: the attributes `__geo_decode` stores on the `poi`
object (`self.address`, `self.osmid`, `self.coordinates`). -/
structure Place where
  address : String
  osmid : Int
  coordinates : ℚ × ℚ
deriving DecidableEq, Repr

/-- Message of the `ValueError` raised when the geocoding HTTP status is not 200. -/
def geoStatusMsg : String :=
  "We could not decode the address, please make sure you entered it correctly"

/-- Message of the `ValueError` raised when no candidate has the requested OSM type. -/
def geoKindMsg (osm_type : String) : String :=
  "We could not find places with the type " ++ osm_type

/-- Message of the `ValueError` raised when OSRM reports a non-Ok code. -/
def osrmMsg : String :=
  "OSRM could not find a route between the source and the destination"

/-- The candidate scan of `__geo_decode`: the `while` loop
`while place['properties']['geocoding']['osm_type'] != osm_type` that
increments `index` and re-indexes `features`, where the `try/except`
around the re-indexing turns the `IndexError` at the end of the list into
the `ValueError` `geoKindMsg`.  The monotonically increasing `index` of
the source is rendered structurally: `rest` is the suffix of `features`
after the current `place`, so `place = features[index]` pairs with
`rest = features[index+1:]`, and the failing re-index at the end of the
list is the `rest = []` case. -/
def geoLoop (osm_type : String) (place : Feature) (rest : List Feature) :
    Except PyErr Feature :=
  if place.geocoding.osm_type = osm_type then
    Except.ok place
  else
    match rest with
    | [] => Except.error (PyErr.valueError (geoKindMsg osm_type))
    | next :: rest2 => geoLoop osm_type next rest2

/-- `poi.__geo_decode`, as a function of the requested `osm_type`, the HTTP
status code of the Nominatim response, and the outcome of parsing its body
(`response.json()` may itself fault, hence `Except`).  The body is only
examined after the status check, matching the source order.  Note the
unguarded `place = response_json['features'][index]` with `index = 0` of
the source, which sits outside the `try/except`: an empty feature list
produces `PyErr.indexError`. -/
def geo_decode (osm_type : String) (status_code : Nat)
    (body : Except PyErr (List Feature)) : Except PyErr Place :=
  if status_code ≠ 200 then
    Except.error (PyErr.valueError geoStatusMsg)
  else
    match body with
    | Except.error e => Except.error e
    | Except.ok features =>
      match features with
      | [] => Except.error PyErr.indexError
      | place0 :: rest =>
        match geoLoop osm_type place0 rest with
        | Except.error e => Except.error e
        | Except.ok place =>
          Except.ok { address := place.geocoding.label
                      osmid := place.geocoding.osm_id
                      coordinates := place.coordinates }

/-- `poi.__eq__`: equality of two places compares only `osmid`. -/
def Place.eq (self other : Place) : Bool :=
  self.osmid == other.osmid

/-- `poi.__hash__`: returns the raw `osmid`. -/
def Place.hash (self : Place) : Int :=
  self.osmid

/-- The `maneuver` object of an OSRM step; its `location` is a JSON array
in (longitude, latitude) order. -/
structure Maneuver where
  location : List ℚ
deriving DecidableEq, Repr

/-- One element of the `steps` array of an OSRM leg. -/
structure RouteStep where
  maneuver : Maneuver
deriving DecidableEq, Repr

/-- One element of the `legs` array of an OSRM route. -/
structure RouteLeg where
  steps : List RouteStep
deriving DecidableEq, Repr

/-- One element of the `routes` array of an OSRM response body. -/
structure OsrmRoute where
  distance : ℚ
  duration : ℚ
  legs : List RouteLeg
deriving DecidableEq, Repr

/-- The parsed OSRM response body: the top-level `code` and the `routes` array. -/
structure OsrmResponse where
  code : String
  routes : List OsrmRoute
deriving DecidableEq, Repr

/-- The HTTP response of the routing call: its transport status code and its
parsed JSON body.  The source never reads `response.status_code` in
`route_to`; carrying it here lets us state that the outcome is independent
of it. -/
structure HttpRouteResponse where
  status_code : Nat
  body : OsrmResponse
deriving DecidableEq, Repr

/-- The dictionary `route_to` returns: keys `route`, `length`, `duration`. -/
structure RouteDict where
  route : List (List ℚ)
  length : ℚ
  duration : ℚ
deriving DecidableEq, Repr

/-- `poi.route_to`: reads the coordinates of `self` and `destination`,
checks the embedded `code` of the response body, indexes `routes[0]` and
its `legs[0]` (each unguarded in the source, hence `PyErr.indexError` when
absent), and maps `location[::-1]` over the steps.  The source assigns no
attribute of either place, so the embedding returns both places unchanged
alongside the result. -/
def route_to (self destination : Place) (resp : HttpRouteResponse) :
    Except PyErr RouteDict × Place × Place :=
  let src : ℚ × ℚ := self.coordinates
  let dest : ℚ × ℚ := destination.coordinates
  let response_json := resp.body
  let result : Except PyErr RouteDict :=
    if response_json.code ≠ "Ok" then
      Except.error (PyErr.valueError osrmMsg)
    else
      match response_json.routes[0]? with
      | none => Except.error PyErr.indexError
      | some route =>
        let cost := route.distance
        let duration := route.duration
        match route.legs[0]? with
        | none => Except.error PyErr.indexError
        | some legs =>
          let steps := legs.steps
          let route_coords :=
            steps.map (fun route_step => route_step.maneuver.location.reverse)
          Except.ok { route := route_coords, length := cost, duration := duration }
  (result, self, destination)

/-! Concrete fixtures, used by witnesses and counterexamples.  They follow
the end-to-end scenario of the spec: a `way`-kind candidate ranked above a
`node`-kind candidate with `osm_id = 12345`, and an OSRM response whose two
maneuver locations are `[-79.40, 43.66]` and `[-79.38, 43.65]`. -/

/-- A higher-ranked geocoding candidate of kind `way`. -/
def wayFeature : Feature :=
  ⟨⟨"way", 999, "University of Toronto campus outline"⟩, (-79.39, 43.66)⟩

/-- A geocoding candidate of kind `node` with `osm_id = 12345`. -/
def nodeFeature : Feature :=
  ⟨⟨"node", 12345, "University of Toronto"⟩, (-79.3973638, 43.6620257)⟩

/-- A resolved place with identifier 12345. -/
def placeA : Place :=
  ⟨"University of Toronto", 12345, (-79.3973638, 43.6620257)⟩

/-- A place sharing the identifier of `placeA` but carrying a different
(stale) address string. -/
def placeA2 : Place :=
  ⟨"University of Toronto, St George Street, Old Toronto", 12345,
    (-79.3973638, 43.6620257)⟩

/-- A second resolved place with a different identifier. -/
def placeB : Place :=
  ⟨"Union Station, Toronto", 67890, (-79.3807, 43.6453)⟩

/-- The leg of the fixture OSRM response: two steps with maneuver locations
in (longitude, latitude) order. -/
def okLeg : RouteLeg :=
  ⟨[⟨⟨[-79.40, 43.66]⟩⟩, ⟨⟨[-79.38, 43.65]⟩⟩]⟩

/-- The first (and only) route of the fixture OSRM response. -/
def okRoute : OsrmRoute :=
  ⟨10890.3, 1296.4, [okLeg]⟩

/-- A fixture OSRM response accepted by `route_to`. -/
def respOk : HttpRouteResponse :=
  ⟨200, ⟨"Ok", [okRoute]⟩⟩

/-- An OSRM response body whose embedded code reports failure. -/
def noRouteBody : OsrmResponse :=
  ⟨"NoRoute", []⟩

/-- An OSRM response body that is accepted (`code = "Ok"`) but carries a
negative distance, a negative duration and a step-less leg: the source
copies these through unchecked. -/
def respNeg : HttpRouteResponse :=
  ⟨200, ⟨"Ok", [⟨-1, -2, [⟨[]⟩]⟩]⟩⟩

/-! Helper lemmas. -/

/-- The fault-driven scan of `geoLoop`, started at `place` with suffix
`rest`, returns exactly the first element of `place :: rest` whose
`osm_type` matches, and the kind-not-found `ValueError` when none does. -/
theorem geoLoop_eq_find (osm_type : String) (place : Feature) (rest : List Feature) :
    geoLoop osm_type place rest =
      match (place :: rest).find? (fun f => f.geocoding.osm_type == osm_type) with
      | some f => Except.ok f
      | none => Except.error (PyErr.valueError (geoKindMsg osm_type)) := by
  induction rest generalizing place with
  | nil =>
    unfold geoLoop
    by_cases h : place.geocoding.osm_type = osm_type <;>
      simp [h, List.find?_cons]
  | cons next rest2 ih =>
    unfold geoLoop
    by_cases h : place.geocoding.osm_type = osm_type <;>
      simp [h, List.find?_cons, ih]

/-- On an accepted routing response, `route_to` returns the dictionary built
from the first route, its first leg, and the reversed maneuver locations. -/
theorem route_to_ok (p q : Place) (resp : HttpRouteResponse) (r : OsrmRoute)
    (leg : RouteLeg) (hcode : resp.body.code = "Ok")
    (hr : resp.body.routes[0]? = some r) (hleg : r.legs[0]? = some leg) :
    (route_to p q resp).1 =
      Except.ok { route := leg.steps.map (fun s => s.maneuver.location.reverse)
                  length := r.distance
                  duration := r.duration } := by
  simp [route_to, hcode, hr, hleg]

/-! Claim theorems. -/

/-- C1: for every geocoding response (success status, parsed body) whose
candidate list has a first candidate of the requested entity kind — the
first `f` satisfying `List.find?`, every higher-ranked candidate of a
different kind being skipped — `geo_decode` returns the `Place` built from
exactly that candidate. -/
theorem geo_decode_first_matching_kind (osm_type : String)
    (features : List Feature) (f : Feature)
    (hfind : features.find? (fun c => c.geocoding.osm_type == osm_type) = some f) :
    geo_decode osm_type 200 (Except.ok features) =
      Except.ok { address := f.geocoding.label
                  osmid := f.geocoding.osm_id
                  coordinates := f.coordinates } := by
  cases features with
  | nil => simp [List.find?] at hfind
  | cons place0 rest =>
    simp [geo_decode, geoLoop_eq_find, hfind]

/-- Witness for C1: with a `way`-kind candidate ranked above the `node`-kind
candidate, requesting `node` selects the node and skips the way. -/
theorem geo_decode_first_matching_kind_witness :
    geo_decode "node" 200 (Except.ok [wayFeature, nodeFeature]) =
      Except.ok { address := "University of Toronto"
                  osmid := 12345
                  coordinates := (-79.3973638, 43.6620257) } :=
  geo_decode_first_matching_kind "node" [wayFeature, nodeFeature] nodeFeature rfl

/-- C2 counter-evidence: on the empty candidate list `geo_decode` produces
the uncaught index fault of the unguarded `features[0]`, not the
resolution `ValueError`; on a non-empty list without a matching kind it
produces the resolution `ValueError`.  The two cases do NOT behave
identically, contradicting the claim. -/
theorem geo_decode_empty_is_index_fault :
    geo_decode "node" 200 (Except.ok []) = Except.error PyErr.indexError ∧
    geo_decode "node" 200 (Except.ok [wayFeature]) =
      Except.error (PyErr.valueError (geoKindMsg "node")) :=
  ⟨rfl, rfl⟩

/-- C3: whenever the transport status of the geocoding response is not 200,
`geo_decode` fails with the resolution `ValueError` for every body
outcome, including a body whose parse would itself fault — the body is
never parsed. -/
theorem geo_decode_bad_status (osm_type : String) (status_code : Nat)
    (body : Except PyErr (List Feature)) (h : status_code ≠ 200) :
    geo_decode osm_type status_code body =
      Except.error (PyErr.valueError geoStatusMsg) := by
  simp [geo_decode, h]

/-- Witness for C3: status 404 with an unparseable body still yields the
resolution `ValueError`. -/
theorem geo_decode_bad_status_witness :
    geo_decode "node" 404 (Except.error PyErr.indexError) =
      Except.error (PyErr.valueError geoStatusMsg) :=
  geo_decode_bad_status "node" 404 (Except.error PyErr.indexError) (by decide)

/-- C4: whenever the code embedded in the routing response body is not
`"Ok"`, `route_to` fails with the routing `ValueError` for every HTTP
transport status — the decision depends only on the embedded code. -/
theorem route_to_embedded_code_error (p q : Place) (body : OsrmResponse)
    (h : body.code ≠ "Ok") :
    ∀ status_code : Nat,
      (route_to p q ⟨status_code, body⟩).1 =
        Except.error (PyErr.valueError osrmMsg) := by
  intro status_code
  simp [route_to, h]

/-- Witness for C4: a body reporting `"NoRoute"` fails even under a
successful HTTP status 200. -/
theorem route_to_embedded_code_error_witness :
    (route_to placeA placeB ⟨200, noRouteBody⟩).1 =
      Except.error (PyErr.valueError osrmMsg) :=
  route_to_embedded_code_error placeA placeB noRouteBody (by decide) 200

/-- C5: on an accepted routing response, the returned path is the maneuver
location of every step of the selected leg, in step order, each reversed
from (longitude, latitude) to (latitude, longitude). -/
theorem route_to_path_swap (p q : Place) (resp : HttpRouteResponse)
    (r : OsrmRoute) (leg : RouteLeg) (hcode : resp.body.code = "Ok")
    (hr : resp.body.routes[0]? = some r) (hleg : r.legs[0]? = some leg) :
    ((route_to p q resp).1).map RouteDict.route =
      Except.ok (leg.steps.map (fun s => s.maneuver.location.reverse)) := by
  rw [route_to_ok p q resp r leg hcode hr hleg]
  rfl

/-- Witness for C5: maneuver locations `[-79.40, 43.66]` and
`[-79.38, 43.65]` yield the path `[43.66, -79.40]`, `[43.65, -79.38]`. -/
theorem route_to_path_swap_witness :
    ((route_to placeA placeB respOk).1).map RouteDict.route =
      Except.ok [[(43.66 : ℚ), -79.40], [(43.65 : ℚ), -79.38]] := by
  rw [route_to_path_swap placeA placeB respOk okRoute okLeg rfl rfl rfl]
  rfl

/-- C6: on an accepted routing response, `route_to` selects the first route
candidate `r` and its first leg, and returns exactly the record whose
`length` is the distance of `r`, whose `duration` is the duration of `r`,
and whose path comes from that first leg. -/
theorem route_to_first_route_leg (p q : Place) (resp : HttpRouteResponse)
    (r : OsrmRoute) (leg : RouteLeg) (hcode : resp.body.code = "Ok")
    (hr : resp.body.routes[0]? = some r) (hleg : r.legs[0]? = some leg) :
    (route_to p q resp).1 =
      Except.ok { route := leg.steps.map (fun s => s.maneuver.location.reverse)
                  length := r.distance
                  duration := r.duration } :=
  route_to_ok p q resp r leg hcode hr hleg

/-- Witness for C6: the fixture response yields exactly its first route
distance 10890.3 and duration 1296.4 alongside the converted path. -/
theorem route_to_first_route_leg_witness :
    (route_to placeA placeB respOk).1 =
      Except.ok { route := [[(43.66 : ℚ), -79.40], [(43.65 : ℚ), -79.38]]
                  length := (10890.3 : ℚ)
                  duration := (1296.4 : ℚ) } := by
  rw [route_to_first_route_leg placeA placeB respOk okRoute okLeg rfl rfl rfl]
  rfl

/-- C7: two places are equal under the equality method exactly when their
`osmid` identifiers are equal, every other field notwithstanding; in
particular `placeA` and `placeA2`, which share an identifier but carry
different address strings, are equal. -/
theorem place_eq_iff_osmid :
    (∀ p q : Place, Place.eq p q = true ↔ p.osmid = q.osmid) ∧
    Place.eq placeA placeA2 = true := by
  refine ⟨fun p q => ?_, rfl⟩
  simp [Place.eq]

/-- Witness for C7: the iff applied at `placeA`, `placeA2` derives their
equality from the shared identifier. -/
theorem place_eq_iff_osmid_witness : Place.eq placeA placeA2 = true :=
  (place_eq_iff_osmid.1 placeA placeA2).mpr (by decide)

/-- C8 counterexample: an accepted response carrying a negative distance, a
negative duration and a step-less leg is passed through unchecked, so
`route_to` returns a route whose length is negative (and whose path is
empty), refuting the claim that every returned route has non-negative
length and duration. -/
theorem route_to_negative_counterexample :
    (route_to placeA placeB respNeg).1 =
      Except.ok { route := [], length := -1, duration := -2 } ∧
    ¬ ((0 : ℚ) ≤ -1) :=
  ⟨rfl, by norm_num⟩

/-- C8 amended: `route_to` copies the response distance and duration
unchanged and emits one path point per step, so whenever the accepted
response carries a non-negative distance and duration and a non-empty step
list, the returned route has non-negative length, non-negative duration
and a non-empty (finite) path. -/
theorem route_to_nonneg_of_response_nonneg (p q : Place)
    (resp : HttpRouteResponse) (r : OsrmRoute) (leg : RouteLeg)
    (hcode : resp.body.code = "Ok") (hr : resp.body.routes[0]? = some r)
    (hleg : r.legs[0]? = some leg) (hdist : 0 ≤ r.distance)
    (hdur : 0 ≤ r.duration) (hsteps : leg.steps ≠ []) :
    ∃ d : RouteDict, (route_to p q resp).1 = Except.ok d ∧
      0 ≤ d.length ∧ 0 ≤ d.duration ∧ d.route ≠ [] := by
  refine ⟨_, route_to_ok p q resp r leg hcode hr hleg, hdist, hdur, ?_⟩
  simpa [List.map_eq_nil_iff] using hsteps

/-- Witness for C8 (amended): the fixture response has non-negative totals
and two steps, so the returned route is well-formed. -/
theorem route_to_nonneg_of_response_nonneg_witness :
    ∃ d : RouteDict, (route_to placeA placeB respOk).1 = Except.ok d ∧
      0 ≤ d.length ∧ 0 ≤ d.duration ∧ d.route ≠ [] :=
  route_to_nonneg_of_response_nonneg placeA placeB respOk okRoute okLeg
    rfl rfl rfl (by norm_num [okRoute]) (by norm_num [okRoute]) (by decide)

/-- C9: `route_to` returns both of its place arguments unchanged — every
field of the origin and of the destination after the call is the field it
had before, matching a source body that reads attributes of `self` and
`destination` and assigns none; the route dictionary is built afresh from
the response on each call (the embedding, like the source, holds no cache
state). -/
theorem route_to_preserves_places (p q : Place) (resp : HttpRouteResponse) :
    (route_to p q resp).2 = (p, q) :=
  rfl

/-- C10: the hash method returns the raw `osmid` identifier, and
consequently two places equal under the identifier-only equality method
have equal hashes. -/
theorem place_hash_raw_osmid (p q : Place) :
    Place.hash p = p.osmid ∧ (Place.eq p q = true → Place.hash p = Place.hash q) := by
  refine ⟨rfl, fun h => ?_⟩
  have hid : p.osmid = q.osmid := by simpa [Place.eq] using h
  simpa [Place.hash] using hid

/-- Witness for C10: applied at `placeA`, `placeA2`, whose equality holds,
the hashes agree and equal the raw identifier. -/
theorem place_hash_raw_osmid_witness :
    Place.hash placeA = placeA.osmid ∧ Place.hash placeA = Place.hash placeA2 :=
  ⟨(place_hash_raw_osmid placeA placeA2).1,
   (place_hash_raw_osmid placeA placeA2).2 (by decide)⟩
